import Mathlib

/-!
Verification development for the trade_stock decision engine.

The definitions below are a shallow embedding of the Python sources
`src/src/condition.py`, `src/src/strategy.py`, `src/src/trade.py` and the
state record of `src/src/state.py`:
* share counts, currency amounts and prices are `Int` (Python ints);
* Python float fields used only for averages and percentage comparisons
  (`avg_buy_price`, profit percentages) are modelled as `ℚ`;
* pandas dataframes are modelled by the fields the code actually reads:
  a quote is `Option Int` (`none` = missing/empty frame), the holdings
  frame is a list of rows, the balance frame is `Option Int`;
* Python floor division `//` is `Int.fdiv`;
* fallible lookups return `Option`.
-/

namespace TradeStock

/-- Trade type of a forced trade: `original_trade_type ∈ {BUY, SELL, AUTO}`. -/
inductive TradeType where
  | BUY
  | SELL
  | AUTO
  deriving DecidableEq

/-- The `current_phase` string of the persisted record.  `state.py` sets it to
`"BUYING"` for AUTO trades and to the trade type itself (`"BUY"`/`"SELL"`)
for plain trades; `condition.py` later also writes `"SELLING"`. -/
inductive Phase where
  | BUYING
  | SELLING
  | BUY
  | SELL
  deriving DecidableEq

/-- Python substring test `'BUY' in current_phase` used at condition.py line
330: true exactly for the phase strings "BUYING" and "BUY". -/
def phaseHasBuy : Phase → Bool
  | .BUYING => true
  | .BUY => true
  | _ => false

/-- The persisted `ForcedTradeState` record (`trade_state.json`), with the
fields read or written by `condition.py` / `state.py`. -/
structure ForcedTradeState where
  active : Bool := true
  trade_id : String := ""
  original_trade_type : TradeType
  current_phase : Phase
  stock_code : String := ""
  total_amount : Int := 0
  remaining_amount : Int := 0
  total_quantity : Int := 0
  remaining_quantity : Int := 0
  price : Int := 0
  market : String := "KRX"
  division_count : Int := 1
  divisions_done : Int := 0
  bought_quantity : Int := 0
  avg_buy_price : ℚ := 0
  sell_profit_target_percent : ℚ := 0
  deriving DecidableEq

/-- One row of the holdings dataframe, restricted to the columns the code
reads: `pdno` (instrument code), `hldg_qty` (held quantity), `ord_psbl_qty`
(sellable quantity), `pchs_avg_pric` (average purchase price),
`evlu_pfls_rt` (profit rate percent), `evlu_amt` (valuation). -/
structure HoldingRow where
  pdno : String
  hldg_qty : Int := 0
  ord_psbl_qty : Int := 0
  pchs_avg_pric : ℚ := 0
  evlu_pfls_rt : ℚ := 0
  evlu_amt : Int := 0
  deriving DecidableEq

/-- The per-cycle market snapshot fetched once by `find_action_to_take`:
current wall-clock (weekday 0–6 and seconds since midnight, for the
trading-hours predicate), per-instrument quote (`stck_prpr`), the holdings
frame, and the cash balance (`dnca_tot_amt`; `none` = missing/empty frame). -/
structure MarketData where
  weekday : Nat
  secs : Nat
  price_df : String → Option Int
  holdings : List HoldingRow
  balance : Option Int

/-- condition.py `_get_available_buy_cash`: the cash column of the balance
frame, or 0 when the frame is missing or empty. -/
def get_available_buy_cash (balance : Option Int) : Int :=
  balance.getD 0

/-- The first holdings row whose `pdno` equals the given code (pandas
`holdings_df[holdings_df['pdno'] == stock_code]` + `.iloc[0]`). -/
def holdingFor (stock_code : String) (hs : List HoldingRow) : Option HoldingRow :=
  hs.find? (fun h => h.pdno == stock_code)

/-- condition.py `_get_stock_sellable_quantity`: `ord_psbl_qty` of the
matching holdings row, or 0 when there is none. -/
def get_stock_sellable_quantity (stock_code : String) (hs : List HoldingRow) : Int :=
  match holdingFor stock_code hs with
  | some h => h.ord_psbl_qty
  | none => 0

/-- condition.py `_get_stock_current_value`: `evlu_amt` of the matching
holdings row, or 0 when there is none. -/
def get_stock_current_value (stock_code : String) (hs : List HoldingRow) : Int :=
  match holdingFor stock_code hs with
  | some h => h.evlu_amt
  | none => 0

/-- strategy.py inline lookup in `simple_sell`: `hldg_qty` of the matching
holdings row, or 0 when there is none. -/
def held_quantity (stock_code : String) (hs : List HoldingRow) : Int :=
  match holdingFor stock_code hs with
  | some h => h.hldg_qty
  | none => 0

/-- condition.py `is_trading_hours`: bypass when `check_enabled` is false,
weekends always closed, otherwise the venue table
`{"KRX": 09:00–15:30, "NXT": 08:00–18:00}` with KRX as the default for any
other market string; times compared in seconds since midnight. -/
def is_trading_hours (check_enabled : Bool) (weekday : Nat) (secs : Nat)
    (market : String) : Bool :=
  if check_enabled = false then true
  else if 5 ≤ weekday then false
  else
    let start_time : Nat := if market == "NXT" then 8 * 3600 else 9 * 3600
    let end_time : Nat := if market == "NXT" then 18 * 3600 else 15 * 3600 + 30 * 60
    decide (start_time ≤ secs ∧ secs ≤ end_time)

/-- Python truthiness of the value `trade.order_buy` / `trade.order_sell`
return.  trade.py returns the 2-tuple `(success, result)` and condition.py
tests it with `if trade_successful:`.  A non-empty tuple is truthy in
Python regardless of its contents, so the test is true even when the
success flag is `False`. -/
def pyTruthyPair (_t : Bool × String) : Bool :=
  true

/-- trade.py `order_buy`: submits the order and returns the pair
`(success, result)` from `core_logic.create_order`.  The gateway success
flag is supplied by the environment. -/
def order_buy (order_ok : Bool) (order_msg : String) : Bool × String :=
  (order_ok, order_msg)

/-- trade.py `order_sell`: same return shape as `order_buy`. -/
def order_sell (order_ok : Bool) (order_msg : String) : Bool × String :=
  (order_ok, order_msg)

/-- An action dictionary returned to the orchestrator. -/
structure TradeAction where
  type : TradeType
  stock_code : String
  quantity : Int
  price : Int
  market : String
  strategy_name : String
  is_forced_trade : Bool := false
  deriving DecidableEq

/-- Result of `_process_active_forced_trade`: an order action, the
`{'status': 'forced_trade_handled'}` marker, or Python `None`. -/
inductive FTResult where
  | act (a : TradeAction)
  | handled
  | nothing
  deriving DecidableEq

/-- condition.py lines 328–350, the per-division order-size computation:
quantity-based sizing when `total_quantity > 0`, otherwise amount-based
sizing from `remaining_amount` clamped by the available cash and converted
to shares by floor division with the current price; negative results are
floored to 0. -/
def order_quantity_raw (s : ForcedTradeState) (current_price : Int)
    (available_cash : Int) : Int :=
  if phaseHasBuy s.current_phase then
    if 0 < s.total_quantity then
      let q :=
        if s.division_count ≤ 1 then s.remaining_quantity
        else Int.fdiv s.remaining_quantity (max 1 (s.division_count - s.divisions_done))
      if s.divisions_done = s.division_count - 1 then s.remaining_quantity else q
    else if 0 < s.total_amount then
      let a :=
        if s.division_count ≤ 1 then s.remaining_amount
        else Int.fdiv s.remaining_amount (max 1 (s.division_count - s.divisions_done))
      let a2 := if s.divisions_done = s.division_count - 1 then s.remaining_amount else a
      let a3 := if available_cash < a2 then available_cash else a2
      Int.fdiv a3 current_price
    else 0
  else 0

/-- condition.py line 350: `if order_quantity < 0: order_quantity = 0`. -/
def compute_order_quantity (s : ForcedTradeState) (current_price : Int)
    (available_cash : Int) : Int :=
  let oq := order_quantity_raw s current_price available_cash
  if oq < 0 then 0 else oq

/-- condition.py lines 304–326 (AUTO-mode first-run initialization): when an
AUTO trade is on its very first BUYING cycle (`divisions_done == 0`,
`bought_quantity == 0`), seed `bought_quantity`/`avg_buy_price` from the
existing holding and, in quantity mode, clamp `remaining_quantity` to
`max 0 (total_quantity - existing_qty)`; the updated record is saved. -/
def auto_init (md : MarketData) (s : ForcedTradeState) : ForcedTradeState :=
  if s.original_trade_type = .AUTO ∧ s.divisions_done = 0 ∧ s.bought_quantity = 0
      ∧ s.current_phase = .BUYING then
    match holdingFor s.stock_code md.holdings with
    | some h =>
      let s1 := { s with bought_quantity := h.hldg_qty, avg_buy_price := h.pchs_avg_pric }
      if 0 < s.total_quantity then
        { s1 with remaining_quantity := max 0 (s.total_quantity - h.hldg_qty) }
      else s1
    | none => s
  else s

/-- condition.py lines 370–384, the state update performed after an AUTO
divisional BUY submission: increment `divisions_done`, subtract the order
quantity from `remaining_quantity` (`remaining_amount` is not touched),
fold the division into the weighted `avg_buy_price` (market orders use the
observed current price as the execution-price estimate), and switch the
phase to SELLING once `divisions_done >= division_count` or
`remaining_quantity <= 0`. -/
def buying_success_update (s : ForcedTradeState) (order_quantity current_price : Int) :
    ForcedTradeState :=
  let dd1 := s.divisions_done + 1
  let rq1 := s.remaining_quantity - order_quantity
  let actual_buy_price : ℚ := if s.price ≠ 0 then (s.price : ℚ) else (current_price : ℚ)
  let new_bought_total := s.bought_quantity + order_quantity
  let avg1 :=
    if 0 < new_bought_total then
      (s.avg_buy_price * (s.bought_quantity : ℚ)
        + actual_buy_price * (order_quantity : ℚ)) / (new_bought_total : ℚ)
    else s.avg_buy_price
  let ph1 := if s.division_count ≤ dd1 ∨ rq1 ≤ 0 then Phase.SELLING else s.current_phase
  { s with divisions_done := dd1, remaining_quantity := rq1, avg_buy_price := avg1,
           bought_quantity := new_bought_total, current_phase := ph1 }

/-- condition.py lines 418–425, the cycle reset after an AUTO SELL
submission: back to BUYING with counters cleared, the remaining targets
restored from the totals, and a regenerated trade id. -/
def selling_reset (s : ForcedTradeState) (new_trade_id : String) : ForcedTradeState :=
  { s with current_phase := .BUYING, divisions_done := 0, bought_quantity := 0,
           avg_buy_price := 0, remaining_quantity := s.total_quantity,
           remaining_amount := s.total_amount, trade_id := new_trade_id }

/-- condition.py lines 439–451, the order-quantity computation of the plain
BUY/SELL branch: a plain SELL uses the full sellable quantity; a plain BUY
redoes the divisional sizing (without the available-cash clamp of the AUTO
path) from the, never decremented, remaining amount/quantity. -/
def plain_order_quantity (md : MarketData) (s : ForcedTradeState)
    (current_price : Int) : Int :=
  if s.original_trade_type = .SELL then
    get_stock_sellable_quantity s.stock_code md.holdings
  else
    if 0 < s.total_amount ∧ s.total_quantity = 0 then
      let a :=
        if s.division_count ≤ 1 then s.remaining_amount
        else Int.fdiv s.remaining_amount (max 1 (s.division_count - s.divisions_done))
      let a2 := if s.divisions_done = s.division_count - 1 then s.remaining_amount else a
      if 0 < current_price then Int.fdiv a2 current_price else 0
    else if 0 < s.total_quantity then
      let b :=
        if s.division_count ≤ 1 then s.remaining_quantity
        else Int.fdiv s.remaining_quantity (max 1 (s.division_count - s.divisions_done))
      if s.divisions_done = s.division_count - 1 then s.remaining_quantity else b
    else 0

/-- condition.py `_process_active_forced_trade`, as one cycle of the forced
trade state machine.  Inputs: the cycle snapshot, the gateway success flag
for the (at most one) order submitted this cycle, the loaded state, and
the timestamp-derived trade id a reset would assign.  Output: the returned
value (action / handled / None) paired with the state as persisted at the
end of the cycle (`none` models `state.save_trade_state({})`; when nothing
was saved the persisted state is the unchanged input).

Note on the success test: the code mangled at source lines 413–430 has
broken indentation around the sell-order `if trade_successful:`/`else`
pair; it is embedded here with the structure its log messages spell out
(success path resets the cycle, failure path keeps the state), matching
the intact BUY branch at lines 367–389. -/
def process_active_forced_trade (md : MarketData) (order_ok : Bool)
    (s0 : ForcedTradeState) (new_trade_id : String) :
    FTResult × Option ForcedTradeState :=
  if is_trading_hours true md.weekday md.secs s0.market = false then
    (.handled, some s0)
  else
    match md.price_df s0.stock_code with
    | none => (.handled, some s0)
    | some current_price =>
      if current_price ≤ 0 then (.handled, some s0)
      else
        let s := auto_init md s0
        let order_quantity :=
          compute_order_quantity s current_price (get_available_buy_cash md.balance)
        if s.original_trade_type = .AUTO ∧ s.current_phase = .BUYING then
          if s.remaining_quantity ≤ 0 ∧ 0 < s.total_quantity then
            (.handled, some { s with current_phase := .SELLING })
          else if order_quantity ≤ 0 then (.handled, some s)
          else
            let a : TradeAction :=
              { type := .BUY, stock_code := s.stock_code, quantity := order_quantity,
                price := s.price, market := s.market,
                strategy_name := "FORCED_TRADE_AUTO_BUY_DIVISION", is_forced_trade := true }
            if pyTruthyPair (order_buy order_ok "") then
              (.act a, some (buying_success_update s order_quantity current_price))
            else (.handled, some s)
        else if s.original_trade_type = .AUTO ∧ s.current_phase = .SELLING then
          if s.bought_quantity ≤ 0 then (.handled, none)
          else if 0 < s.avg_buy_price then
            let current_profit_percent :=
              ((current_price : ℚ) - s.avg_buy_price) / s.avg_buy_price * 100
            if s.sell_profit_target_percent ≤ current_profit_percent then
              let sell_quantity := get_stock_sellable_quantity s.stock_code md.holdings
              if sell_quantity ≤ 0 then (.handled, some s)
              else
                let a : TradeAction :=
                  { type := .SELL, stock_code := s.stock_code, quantity := sell_quantity,
                    price := 0, market := s.market,
                    strategy_name := "FORCED_TRADE_AUTO_SELL", is_forced_trade := true }
                if pyTruthyPair (order_sell order_ok "") then
                  (.act a, some (selling_reset s new_trade_id))
                else (.handled, some s)
            else (.handled, some s)
          else (.handled, some s)
        else if s.original_trade_type = .BUY ∨ s.original_trade_type = .SELL then
          let q := plain_order_quantity md s current_price
          if q ≤ 0 then (.handled, some s)
          else
            let a : TradeAction :=
              { type := s.original_trade_type, stock_code := s.stock_code, quantity := q,
                price := s.price, market := s.market,
                strategy_name :=
                  if s.original_trade_type = .BUY then "FORCED_TRADE_BUY_DIVISION"
                  else "FORCED_TRADE_SELL_DIVISION",
                is_forced_trade := true }
            if pyTruthyPair
                (if s.original_trade_type = .BUY then order_buy order_ok ""
                 else order_sell order_ok "") then
              let s1 := { s with divisions_done := s.divisions_done + 1 }
              if s.division_count ≤ s1.divisions_done then (.act a, none)
              else (.act a, some s1)
            else (.handled, some s)
        else (.nothing, some s)

/-- Iterates `process_active_forced_trade` for a number of cycles against a
fixed snapshot, collecting the quantities of the submitted orders.  A
cleared state (`none`) stops, as `find_action_to_take` would no longer see
an active trade. -/
def run_divisions (md : MarketData) (order_ok : Bool) :
    Nat → Option ForcedTradeState → List Int × Option ForcedTradeState
  | 0, st => ([], st)
  | _ + 1, none => ([], none)
  | n + 1, some s =>
    match process_active_forced_trade md order_ok s "fresh" with
    | (.act a, st1) =>
      let r := run_divisions md order_ok n st1
      (a.quantity :: r.1, r.2)
    | (_, st1) => run_divisions md order_ok n st1

/-- Parameters of a configured condition (`cond['params']`), restricted to
the keys the five predicates read, plus the `stock_code` key the Rule
Selector scans for. -/
structure CondParams where
  check_enabled : Bool := true
  target_price : Option Int := none
  min_cash_amount : Option Int := none
  target_profit_percent : Option ℚ := none
  stop_loss_percent : Option ℚ := none
  stock_code : Option String := none
  deriving DecidableEq

/-- A configured condition: `{name, params}`. -/
structure CondConfig where
  name : String
  params : CondParams := {}
  deriving DecidableEq

/-- Parameters of a configured strategy (`strategy['params']`). -/
structure StrategyParams where
  stock_code : Option String := none
  amount : Option Int := none
  quantity : Option Int := none
  price : Int := 0
  market : String := "KRX"
  sell_all : Bool := false
  deriving DecidableEq

/-- A configured strategy: `{name, params}`. -/
structure StrategyConfig where
  name : String
  params : StrategyParams := {}
  deriving DecidableEq

/-- A configured rule: `{rule_name, conditions, strategy}`. -/
structure Rule where
  rule_name : String
  conditions : List CondConfig := []
  strategy : StrategyConfig
  deriving DecidableEq

/-- The configuration slice `find_action_to_take` reads: the rule list and
the `forced_trade.enabled` flag (absent key ⇒ false). -/
structure Config where
  forced_trade_enabled : Bool
  rules : List Rule
  deriving DecidableEq

/-- Python truthiness of an optional integer parameter (`None` and `0` are
falsy). -/
def pyTruthyOptInt (o : Option Int) : Bool :=
  match o with
  | none => false
  | some x => x != 0

/-- condition.py `is_price_below_target`: false on missing stock code,
missing `target_price` param, or missing quote; otherwise strictly
current price < target. -/
def is_price_below_target (stock_code : String) (params : CondParams)
    (price_df : Option Int) : Bool :=
  if stock_code == "" then false
  else
    match params.target_price with
    | none => false
    | some target_price =>
      match price_df with
      | none => false
      | some current_price => decide (current_price < target_price)

/-- condition.py `has_sufficient_cash`: false on missing `min_cash_amount`
param or missing balance frame; otherwise cash ≥ minimum. -/
def has_sufficient_cash (params : CondParams) (balance : Option Int) : Bool :=
  match params.min_cash_amount with
  | none => false
  | some min_cash =>
    match balance with
    | none => false
    | some current_cash => decide (min_cash ≤ current_cash)

/-- condition.py `is_target_profit_reached`: false on missing stock code,
missing param, or no matching holding; otherwise profit rate ≥ target. -/
def is_target_profit_reached (stock_code : String) (params : CondParams)
    (hs : List HoldingRow) : Bool :=
  if stock_code == "" then false
  else
    match params.target_profit_percent with
    | none => false
    | some target =>
      match holdingFor stock_code hs with
      | none => false
      | some h => decide (target ≤ h.evlu_pfls_rt)

/-- condition.py `is_stop_loss_reached`: false on missing stock code,
missing param, or no matching holding; otherwise profit rate ≤ threshold. -/
def is_stop_loss_reached (stock_code : String) (params : CondParams)
    (hs : List HoldingRow) : Bool :=
  if stock_code == "" then false
  else
    match params.stop_loss_percent with
    | none => false
    | some threshold =>
      match holdingFor stock_code hs with
      | none => false
      | some h => decide (h.evlu_pfls_rt ≤ threshold)

/-- The five predicate functions `_evaluate_conditions` can resolve. -/
inductive CondFn where
  | trading_hours
  | price_below_target
  | sufficient_cash
  | target_profit_reached
  | stop_loss_reached
  deriving DecidableEq

/-- The three module-level helper functions of condition.py.  They live in
the same `globals()` namespace the condition lookup consults, are truthy
(so the `if not cond_func` fail-closed branch is skipped), their
parameters (`balance_df`, `stock_code`, `holdings_df`) are all present in
the kwargs dict `_evaluate_conditions` builds, and they return an `int` —
so a condition named after one of them is actually CALLED and its result's
truthiness (nonzero) decides the condition. -/
inductive HelperFn where
  | available_buy_cash
  | stock_sellable_quantity
  | stock_current_value
  deriving DecidableEq

/-- What `globals().get(cond_name)` can resolve a condition name to in
condition.py: one of the five predicate functions, one of the three
`_get_*` helper functions, or some other truthy module global whose use as
a condition raises.  `raising` covers the imported modules (`logging`,
`datetime`, `os`, `inspect`, `state`, `core_logic`, `strategy`, `trade`),
on which `inspect.signature` raises a TypeError; the string constants
`PROJECT_ROOT` / `CONFIG_FILE` and the truthy interpreter-supplied dunder
entries (`__name__`, `__doc__`, `__file__`, `__cached__`, `__loader__`,
`__spec__`, `__builtins__`), likewise not callable; and the module's own
driver functions (`_evaluate_conditions`, `_process_rules`,
`_process_active_forced_trade`, `find_action_to_take`), whose required
`config`/`market_data`/`conditions_config` parameters are missing from the
kwargs dict, so calling them raises a TypeError.  In every `raising` case
the exception propagates out of the evaluation instead of the rule
evaluating to false. -/
inductive PyGlobal where
  | predicate (f : CondFn)
  | helper (h : HelperFn)
  | raising
  deriving DecidableEq

/-- The `globals()` namespace of condition.py as consulted by
`globals().get(cond_name)` at line 182: the names written in the module
source plus the truthy dunder entries.  `none` models both a name that is
absent (lookup returns Python `None`) and `__package__`, whose value for
this top-level module is the falsy empty string — in either case
`if not cond_func` takes the fail-closed branch. -/
def module_globals (name : String) : Option PyGlobal :=
  if name == "is_trading_hours" then some (.predicate .trading_hours)
  else if name == "is_price_below_target" then some (.predicate .price_below_target)
  else if name == "has_sufficient_cash" then some (.predicate .sufficient_cash)
  else if name == "is_target_profit_reached" then some (.predicate .target_profit_reached)
  else if name == "is_stop_loss_reached" then some (.predicate .stop_loss_reached)
  else if name == "_get_available_buy_cash" then some (.helper .available_buy_cash)
  else if name == "_get_stock_sellable_quantity" then
    some (.helper .stock_sellable_quantity)
  else if name == "_get_stock_current_value" then some (.helper .stock_current_value)
  else if name == "logging" ∨ name == "datetime" ∨ name == "os" ∨ name == "inspect"
      ∨ name == "state" ∨ name == "core_logic" ∨ name == "strategy"
      ∨ name == "trade" ∨ name == "PROJECT_ROOT" ∨ name == "CONFIG_FILE"
      ∨ name == "_evaluate_conditions" ∨ name == "_process_rules"
      ∨ name == "_process_active_forced_trade" ∨ name == "find_action_to_take"
      ∨ name == "__name__" ∨ name == "__doc__" ∨ name == "__file__"
      ∨ name == "__cached__" ∨ name == "__loader__" ∨ name == "__spec__"
      ∨ name == "__builtins__" then some .raising
  else none

/-- A helper function called as a condition, applied to the kwargs slices
its signature selects. -/
def apply_helper (h : HelperFn) (stock_code : String) (md : MarketData) : Int :=
  match h with
  | .available_buy_cash => get_available_buy_cash md.balance
  | .stock_sellable_quantity => get_stock_sellable_quantity stock_code md.holdings
  | .stock_current_value => get_stock_current_value stock_code md.holdings

/-- condition.py line 196, the `market` keyword `_evaluate_conditions` puts
into each predicate call:
`strategy_config.get('params', {}).get('market', 'KRX') if 'strategy_config' in locals() else 'KRX'`.
`strategy_config` is a local variable of `_process_rules`, never of
`_evaluate_conditions`, so the `in locals()` test is always False and the
keyword is always the default "KRX", whatever market the rule's strategy
configures. -/
def market_kwarg (_strategy_market : String) : String :=
  "KRX"

/-- Dispatch of a resolved predicate on the snapshot slices
`_evaluate_conditions` passes it (each function receives only the
arguments its signature declares). -/
def apply_cond (f : CondFn) (stock_code : String) (params : CondParams)
    (md : MarketData) (market : String) : Bool :=
  match f with
  | .trading_hours => is_trading_hours params.check_enabled md.weekday md.secs market
  | .price_below_target => is_price_below_target stock_code params (md.price_df stock_code)
  | .sufficient_cash => has_sufficient_cash params md.balance
  | .target_profit_reached => is_target_profit_reached stock_code params md.holdings
  | .stop_loss_reached => is_stop_loss_reached stock_code params md.holdings

/-- condition.py `_evaluate_conditions`: strict AND over the list; the
empty list is true.  Each name is resolved via `globals().get`: a falsy
lookup result takes the early `return False` (fail-closed) branch; a
predicate is called and a false result returns `False`; a helper function
is likewise called and the truthiness of its integer result decides the
condition; any other global raises a TypeError, modelled as `none`
(the exception propagates, no boolean is produced).  The
`strategy_market` argument only feeds `market_kwarg` (see there). -/
def evaluate_conditions (strategy_market : String) (stock_code : String)
    (conds : List CondConfig) (md : MarketData) : Option Bool :=
  match conds with
  | [] => some true
  | c :: rest =>
    match module_globals c.name with
    | none => some false
    | some (.predicate f) =>
      if apply_cond f stock_code c.params md (market_kwarg strategy_market) then
        evaluate_conditions strategy_market stock_code rest md
      else some false
    | some (.helper h) =>
      if apply_helper h stock_code md ≠ 0 then
        evaluate_conditions strategy_market stock_code rest md
      else some false
    | some .raising => none

/-- strategy.py `simple_buy`: needs a stock code; with a truthy `amount` and
no truthy `quantity` it derives the quantity from the quote by floor
division (failing on a missing quote, non-positive price, or zero derived
quantity); otherwise a truthy `quantity` must be present. -/
def simple_buy (params : StrategyParams) (price_df : Option Int) : Option TradeAction :=
  match params.stock_code with
  | none => none
  | some stock_code =>
    if stock_code == "" then none
    else
      let mk_action (q : Int) : Option TradeAction :=
        some { type := .BUY, stock_code := stock_code, quantity := q,
               price := params.price, market := params.market,
               strategy_name := "simple_buy" }
      if pyTruthyOptInt params.amount ∧ ¬ pyTruthyOptInt params.quantity then
        match price_df with
        | none => none
        | some current_price =>
          if 0 < current_price then
            let q := Int.fdiv (params.amount.getD 0) current_price
            if q = 0 then none else mk_action q
          else none
      else if pyTruthyOptInt params.quantity then mk_action (params.quantity.getD 0)
      else none

/-- strategy.py `simple_sell`: needs a stock code; with `sell_all` it sells
the held quantity (`hldg_qty`) of the matching holdings row, failing when
that is not positive; without `sell_all` it requires a truthy positive
`quantity`. -/
def simple_sell (params : StrategyParams) (hs : List HoldingRow) : Option TradeAction :=
  match params.stock_code with
  | none => none
  | some stock_code =>
    if stock_code == "" then none
    else
      let mk_action (q : Int) : Option TradeAction :=
        some { type := .SELL, stock_code := stock_code, quantity := q,
               price := params.price, market := params.market,
               strategy_name := "simple_sell" }
      if params.sell_all then
        let held_qty := held_quantity stock_code hs
        if 0 < held_qty then mk_action held_qty else none
      else if ¬ pyTruthyOptInt params.quantity ∨ params.quantity.getD 0 ≤ 0 then none
      else mk_action (params.quantity.getD 0)

/-- The strategy functions `_process_rules` can resolve by name from
strategy.py. -/
inductive StrategyFn where
  | buy
  | sell
  deriving DecidableEq

/-- `getattr(strategy, strategy_func_name, None)` restricted to the two
strategy functions defined in strategy.py. -/
def strategy_registry (name : String) : Option StrategyFn :=
  if name == "simple_buy" then some .buy
  else if name == "simple_sell" then some .sell
  else none

/-- Dispatch of a resolved strategy on the snapshot slices `_process_rules`
passes it. -/
def apply_strategy (f : StrategyFn) (params : StrategyParams)
    (stock_code : String) (md : MarketData) : Option TradeAction :=
  match f with
  | .buy => simple_buy params (md.price_df stock_code)
  | .sell => simple_sell params md.holdings

/-- condition.py `_process_rules` lines 223–228: the rule's instrument code
is the strategy's own `stock_code` param, or failing that the first
condition param carrying one. -/
def resolve_rule_stock_code (r : Rule) : Option String :=
  match r.strategy.params.stock_code with
  | some c => some c
  | none => r.conditions.findSome? (fun c => c.params.stock_code)

/-- condition.py `_process_rules`: first rule (in declared order) whose
conditions all hold and whose strategy yields a non-null action wins; the
action is stamped with the rule name.  Rules without a resolvable stock
code or with an unknown strategy name are skipped.  The function has no
try/except, so a TypeError raised inside `_evaluate_conditions` (a
condition name colliding with a non-predicate module global) propagates
out of the whole rule walk: the outer `none` models that escaped
exception, `some r` a normal return of `r`. -/
def process_rules (rules : List Rule) (md : MarketData) :
    Option (Option TradeAction) :=
  match rules with
  | [] => some none
  | r :: rest =>
    match resolve_rule_stock_code r with
    | none => process_rules rest md
    | some stock_code =>
      match evaluate_conditions r.strategy.params.market stock_code r.conditions md with
      | none => none
      | some false => process_rules rest md
      | some true =>
        match strategy_registry r.strategy.name with
        | none => process_rules rest md
        | some f =>
          match apply_strategy f r.strategy.params stock_code md with
          | some a => some (some { a with strategy_name := r.rule_name })
          | none => process_rules rest md

/-- condition.py `find_action_to_take` lines 512–536: when the forced-trade
config is enabled AND the loaded state is active, the active forced trade
is processed and its outcome (order action, handled marker, or None) is
returned directly; only otherwise are the general rules evaluated.  The
second component records whether `_process_rules` was invoked this cycle.
The first component is `some` of the returned value (the cycle outcome
paired with the persisted state at cycle end), or `none` when a TypeError
escaped the rule walk — `find_action_to_take` has no try/except either, so
such an exception propagates to the caller instead of producing a value. -/
def find_action_to_take (cfg : Config) (trade_state : Option ForcedTradeState)
    (md : MarketData) (order_ok : Bool) (new_trade_id : String) :
    Option (FTResult × Option ForcedTradeState) × Bool :=
  let active := match trade_state with
    | some s => s.active
    | none => false
  if cfg.forced_trade_enabled && active then
    match trade_state with
    | some s => (some (process_active_forced_trade md order_ok s new_trade_id), false)
    | none => (some (.nothing, none), false)
  else
    match process_rules cfg.rules md with
    | none => (none, true)
    | some (some a) => (some (.act a, trade_state), true)
    | some none => (some (.nothing, trade_state), true)

/-- Rules differing only in the strategy's `market` parameter: the second
configuration of claim C10. -/
def set_strategy_market (r : Rule) (m : String) : Rule :=
  { r with strategy := { r.strategy with params := { r.strategy.params with market := m } } }

/-! Concrete cycle fixtures used by the counterexamples and witnesses. -/

/-- Amount-based AUTO state on its first division (as `init_trade_state`
produces for `amount=100000, division_count=4`, no prior holdings). -/
def sC1 : ForcedTradeState :=
  { original_trade_type := .AUTO, current_phase := .BUYING, stock_code := "005930",
    trade_id := "C1", total_amount := 100000, remaining_amount := 100000,
    total_quantity := 0, remaining_quantity := 0, price := 0, division_count := 4,
    divisions_done := 0, bought_quantity := 0, avg_buy_price := 0,
    sell_profit_target_percent := 5 }

/-- Snapshot for C1: Tuesday 10:00, quote 500, no holdings, ample cash. -/
def mdC1 : MarketData :=
  { weekday := 1, secs := 36000,
    price_df := fun c => if c == "005930" then some 500 else none,
    holdings := [], balance := some 1000000 }

/-- The BUY action the C1 cycle submits (division size 25000 // 500 = 50). -/
def actC1 : TradeAction :=
  { type := .BUY, stock_code := "005930", quantity := 50, price := 0, market := "KRX",
    strategy_name := "FORCED_TRADE_AUTO_BUY_DIVISION", is_forced_trade := true }

/-- State the code persists after the C1 cycle. -/
def sC1after : ForcedTradeState :=
  { sC1 with
    divisions_done := 1, remaining_quantity := -50, bought_quantity := 50,
    avg_buy_price := 500, current_phase := .SELLING }

/-- Holdings for the C2 scenario: 100 held of which 80 sellable. -/
def holdC2 : List HoldingRow :=
  [{ pdno := "005930", hldg_qty := 100, ord_psbl_qty := 80, pchs_avg_pric := 1000,
     evlu_pfls_rt := 5 }]

/-- AUTO SELLING state of Scenario C: average 1000, target 5%. -/
def sC2 : ForcedTradeState :=
  { original_trade_type := .AUTO, current_phase := .SELLING, stock_code := "005930",
    trade_id := "C2OLD", total_amount := 0, remaining_amount := 0,
    total_quantity := 100, remaining_quantity := 0, price := 0, division_count := 4,
    divisions_done := 4, bought_quantity := 100, avg_buy_price := 1000,
    sell_profit_target_percent := 5 }

/-- Snapshot for C2 with the quote at 1049 (profit 4.9% < 5%). -/
def mdC2lo : MarketData :=
  { weekday := 2, secs := 36000,
    price_df := fun c => if c == "005930" then some 1049 else none,
    holdings := holdC2, balance := some 0 }

/-- Snapshot for C2 with the quote at 1051 (profit 5.1% ≥ 5%). -/
def mdC2hi : MarketData :=
  { weekday := 2, secs := 36000,
    price_df := fun c => if c == "005930" then some 1051 else none,
    holdings := holdC2, balance := some 0 }

/-- The SELL action the C2 cycle submits: the full sellable quantity 80. -/
def actC2 : TradeAction :=
  { type := .SELL, stock_code := "005930", quantity := 80, price := 0, market := "KRX",
    strategy_name := "FORCED_TRADE_AUTO_SELL", is_forced_trade := true }

/-- State the code persists after the 1051-quote C2 cycle. -/
def sC2reset : ForcedTradeState :=
  { sC2 with
    current_phase := .BUYING, divisions_done := 0, bought_quantity := 0,
    avg_buy_price := 0, remaining_quantity := 100, remaining_amount := 0,
    trade_id := "C2NEW" }

/-- Scenario D sizing state: amount mode, one division,
`remaining_amount = 100000`. -/
def sD : ForcedTradeState :=
  { original_trade_type := .AUTO, current_phase := .BUYING, stock_code := "005930",
    total_amount := 100000, remaining_amount := 100000, total_quantity := 0,
    remaining_quantity := 0, price := 0, division_count := 1, divisions_done := 0 }

/-- Quantity-based AUTO state on its first division
(`quantity=100, division_count=4`, no prior holdings). -/
def sC4 : ForcedTradeState :=
  { original_trade_type := .AUTO, current_phase := .BUYING, stock_code := "005930",
    trade_id := "C4", total_amount := 0, remaining_amount := 0,
    total_quantity := 100, remaining_quantity := 100, price := 0, division_count := 4,
    divisions_done := 0, bought_quantity := 0, avg_buy_price := 0,
    sell_profit_target_percent := 5 }

/-- Snapshot for C4: Monday 11:06:40, quote 1000, no holdings, ample cash. -/
def mdC4 : MarketData :=
  { weekday := 0, secs := 40000,
    price_df := fun c => if c == "005930" then some 1000 else none,
    holdings := [], balance := some 100000000 }

/-- The BUY action the C4 cycle submits (division size 100 // 4 = 25). -/
def actC4 : TradeAction :=
  { type := .BUY, stock_code := "005930", quantity := 25, price := 0, market := "KRX",
    strategy_name := "FORCED_TRADE_AUTO_BUY_DIVISION", is_forced_trade := true }

/-- State the code persists after the C4 cycle. -/
def sC4after : ForcedTradeState :=
  { sC4 with
    divisions_done := 1, remaining_quantity := 75, bought_quantity := 25,
    avg_buy_price := 1000 }

/-- Amount-based AUTO state for the C5 counterexample
(`amount=100000, division_count=1`, no prior holdings). -/
def sC5 : ForcedTradeState :=
  { original_trade_type := .AUTO, current_phase := .BUYING, stock_code := "005930",
    trade_id := "C5", total_amount := 100000, remaining_amount := 100000,
    total_quantity := 0, remaining_quantity := 0, price := 0, division_count := 1,
    divisions_done := 0, bought_quantity := 0, avg_buy_price := 0,
    sell_profit_target_percent := 5 }

/-- Snapshot for C5: quote 500, cash only 60000 (Scenario D numbers),
confirmed-successful order. -/
def mdC5 : MarketData :=
  { weekday := 3, secs := 36000,
    price_df := fun c => if c == "005930" then some 500 else none,
    holdings := [], balance := some 60000 }

/-- State the code persists after the C5 cycle: `remaining_quantity`
driven to −120. -/
def sC5after : ForcedTradeState :=
  { sC5 with
    divisions_done := 1, remaining_quantity := -120, bought_quantity := 120,
    avg_buy_price := 500, current_phase := .SELLING }

/-- Quantity-based AUTO state for the C5 witness: the 100-share target is
already fully held, so this cycle only moves the phase to SELLING. -/
def sW5 : ForcedTradeState :=
  { original_trade_type := .AUTO, current_phase := .BUYING, stock_code := "005930",
    trade_id := "W5", total_amount := 0, remaining_amount := 0,
    total_quantity := 100, remaining_quantity := 0, price := 0, division_count := 4,
    divisions_done := 3, bought_quantity := 100, avg_buy_price := 1000,
    sell_profit_target_percent := 5 }

/-- Snapshot for the C5 witness. -/
def mdW5 : MarketData :=
  { weekday := 4, secs := 36000,
    price_df := fun c => if c == "005930" then some 1000 else none,
    holdings := [], balance := some 100000000 }

/-- State persisted after the C5 witness cycle. -/
def sW5after : ForcedTradeState :=
  { sW5 with current_phase := .SELLING }

/-- A configured rule whose strategy sells the whole holding. -/
def ruleC6 : Rule :=
  { rule_name := "sell all once profitable",
    conditions := [],
    strategy := { name := "simple_sell",
                  params := { stock_code := some "005930", sell_all := true } } }

/-- Holdings for the C6 snapshot. -/
def holdC6 : List HoldingRow :=
  [{ pdno := "005930", hldg_qty := 10, ord_psbl_qty := 5 }]

/-- Snapshot for C6. -/
def mdC6 : MarketData :=
  { weekday := 1, secs := 36000,
    price_df := fun c => if c == "005930" then some 1000 else none,
    holdings := holdC6, balance := some 50000 }

/-- An active quantity-based AUTO state used by the C6 theorems. -/
def sC6 : ForcedTradeState :=
  { sC4 with
    trade_id := "C6" }

/-- Configuration whose `forced_trade.enabled` flag is false (the key may
simply be absent from config.json). -/
def cfgC6 : Config :=
  { forced_trade_enabled := false, rules := [ruleC6] }

/-- The same configuration with the forced trade enabled. -/
def cfgW6 : Config :=
  { forced_trade_enabled := true, rules := [ruleC6] }

/-- Plain (non-AUTO) quantity-based BUY state of Scenario B:
`quantity=10, division_count=3`. -/
def sC7plain : ForcedTradeState :=
  { original_trade_type := .BUY, current_phase := .BUY, stock_code := "005930",
    trade_id := "C7P", total_amount := 0, remaining_amount := 0,
    total_quantity := 10, remaining_quantity := 10, price := 0, division_count := 3,
    divisions_done := 0, bought_quantity := 0, avg_buy_price := 0 }

/-- AUTO state with the same Scenario B plan. -/
def sC7auto : ForcedTradeState :=
  { sC7plain with
    original_trade_type := .AUTO, current_phase := .BUYING,
    trade_id := "C7A" }

/-- Snapshot for C7: every order confirmed successful. -/
def mdC7 : MarketData :=
  { weekday := 2, secs := 40000,
    price_df := fun c => if c == "005930" then some 1000 else none,
    holdings := [], balance := some 100000000 }

/-- Plain-BUY state after one Scenario B division (only `divisions_done`
advances). -/
def sP1 : ForcedTradeState :=
  { sC7plain with divisions_done := 1 }

/-- Plain-BUY state after two Scenario B divisions. -/
def sP2 : ForcedTradeState :=
  { sC7plain with divisions_done := 2 }

/-- AUTO state after the first Scenario B division (3 of 10 bought). -/
def sA1 : ForcedTradeState :=
  { sC7auto with
    divisions_done := 1, remaining_quantity := 7, bought_quantity := 3,
    avg_buy_price := 1000 }

/-- AUTO state after the second Scenario B division (6 of 10 bought). -/
def sA2 : ForcedTradeState :=
  { sC7auto with
    divisions_done := 2, remaining_quantity := 4, bought_quantity := 6,
    avg_buy_price := 1000 }

/-- AUTO state after the final Scenario B division: all 10 bought, phase
switched to SELLING. -/
def sA3 : ForcedTradeState :=
  { sC7auto with
    divisions_done := 3, remaining_quantity := 0, bought_quantity := 10,
    avg_buy_price := 1000, current_phase := .SELLING }

/-- The plain-BUY division action of size `q`. -/
def actC7plain (q : Int) : TradeAction :=
  { type := .BUY, stock_code := "005930", quantity := q, price := 0, market := "KRX",
    strategy_name := "FORCED_TRADE_BUY_DIVISION", is_forced_trade := true }

/-- The AUTO division action of size `q`. -/
def actC7auto (q : Int) : TradeAction :=
  { type := .BUY, stock_code := "005930", quantity := q, price := 0, market := "KRX",
    strategy_name := "FORCED_TRADE_AUTO_BUY_DIVISION", is_forced_trade := true }

/-- A condition whose name nothing in condition.py's namespace carries. -/
def condUnknown : CondConfig :=
  { name := "frobnicate" }

/-- A condition named after the cash helper of condition.py — not a
predicate, yet resolvable by the `globals()` lookup. -/
def condHelperCash : CondConfig :=
  { name := "_get_available_buy_cash" }

/-- A condition named after the imported `os` module. -/
def condOs : CondConfig :=
  { name := "os" }

/-- Snapshot for the C8 witness. -/
def mdC8 : MarketData :=
  { weekday := 2, secs := 36000,
    price_df := fun c => if c == "005930" then some 49000 else none,
    holdings := [], balance := some 100000 }

/-- `simple_sell` parameters with `sell_all=true`. -/
def paramsC9 : StrategyParams :=
  { stock_code := some "005930", sell_all := true }

/-- Holdings for C9: 10 shares held but only 5 sellable. -/
def holdC9 : List HoldingRow :=
  [{ pdno := "005930", hldg_qty := 10, ord_psbl_qty := 5 }]

/-! Helper lemmas about the pieces of the state-machine step. -/

theorem auto_init_total_quantity (md : MarketData) (s : ForcedTradeState) :
    (auto_init md s).total_quantity = s.total_quantity := by
  unfold auto_init
  split
  · split
    · split <;> rfl
    · rfl
  · rfl

theorem auto_init_total_amount (md : MarketData) (s : ForcedTradeState) :
    (auto_init md s).total_amount = s.total_amount := by
  unfold auto_init
  split
  · split
    · split <;> rfl
    · rfl
  · rfl

theorem auto_init_remaining_amount (md : MarketData) (s : ForcedTradeState) :
    (auto_init md s).remaining_amount = s.remaining_amount := by
  unfold auto_init
  split
  · split
    · split <;> rfl
    · rfl
  · rfl

theorem auto_init_remaining_quantity_nonneg (md : MarketData) (s : ForcedTradeState)
    (hrq : 0 ≤ s.remaining_quantity) :
    0 ≤ (auto_init md s).remaining_quantity := by
  unfold auto_init
  split
  · split
    · split
      · exact le_max_left 0 _
      · exact hrq
    · exact hrq
  · exact hrq

/-- In quantity mode a division never exceeds the remaining quantity: the
final division takes it in full and the others floor-divide it by a
positive divisor. -/
theorem order_quantity_raw_le (s : ForcedTradeState) (p cash : Int)
    (hq : 0 < s.total_quantity) (hrq : 0 ≤ s.remaining_quantity) :
    order_quantity_raw s p cash ≤ s.remaining_quantity := by
  have hfd : Int.fdiv s.remaining_quantity
      (max 1 (s.division_count - s.divisions_done)) ≤ s.remaining_quantity := by
    have hpos : (0:Int) ≤ max 1 (s.division_count - s.divisions_done) :=
      le_trans zero_le_one (le_max_left 1 _)
    rw [Int.fdiv_eq_ediv _ hpos]
    exact Int.ediv_le_self _ hrq
  simp only [order_quantity_raw]
  split_ifs <;>
    first
      | exact le_refl _
      | exact hfd
      | exact hrq

/-- The clamped division size never exceeds a nonnegative remainder. -/
theorem compute_order_quantity_le (s : ForcedTradeState) (p cash : Int)
    (hq : 0 < s.total_quantity) (hrq : 0 ≤ s.remaining_quantity) :
    compute_order_quantity s p cash ≤ s.remaining_quantity := by
  simp only [compute_order_quantity]
  split_ifs
  · exact hrq
  · exact order_quantity_raw_le s p cash hq hrq

/-- The clamp at condition.py line 350 makes the division size nonnegative. -/
theorem compute_order_quantity_nonneg (s : ForcedTradeState) (p cash : Int) :
    0 ≤ compute_order_quantity s p cash := by
  simp only [compute_order_quantity]
  split_ifs with h
  · exact le_refl 0
  · exact not_lt.mp h

theorem buying_success_update_remaining_quantity (s : ForcedTradeState)
    (oq p : Int) :
    (buying_success_update s oq p).remaining_quantity = s.remaining_quantity - oq := by
  unfold buying_success_update
  rfl

theorem buying_success_update_remaining_amount (s : ForcedTradeState)
    (oq p : Int) :
    (buying_success_update s oq p).remaining_amount = s.remaining_amount := by
  unfold buying_success_update
  rfl

theorem selling_reset_remaining (s : ForcedTradeState) (tid : String) :
    (selling_reset s tid).remaining_quantity = s.total_quantity
      ∧ (selling_reset s tid).remaining_amount = s.total_amount := by
  unfold selling_reset
  exact ⟨rfl, rfl⟩

/-! The claim theorems. -/

/-- C1: the claim says the AUTO BUYING state is updated if and only if the
BUY submission is confirmed successful, with `remaining_amount` decremented
alongside `remaining_quantity`.  The code disagrees: here a cycle whose
order the gateway REJECTS (success flag `false`) still mutates and persists
the state — `trade.order_buy` returns the tuple `(success, result)`, which
is truthy regardless of the flag — and `remaining_amount` is left at
100000 even though this division spent 25000 of it (it is never
decremented anywhere). -/
theorem buy_update_divergence :
    process_active_forced_trade mdC1 false sC1 "C1NEW" = (.act actC1, some sC1after)
    ∧ sC1after.remaining_amount = sC1.remaining_amount
    ∧ sC1after.remaining_amount = 100000
    ∧ sC1after ≠ sC1 := by
  have hm : ¬ (("KRX":String) = "NXT") := by decide
  have h1 : Int.fdiv 100000 4 = 25000 := by decide
  have h2 : Int.fdiv 25000 500 = 50 := by decide
  refine ⟨?_, by decide, by decide, by decide⟩
  norm_num [process_active_forced_trade, mdC1, sC1, auto_init, holdingFor,
    compute_order_quantity, order_quantity_raw, get_available_buy_cash,
    is_trading_hours, pyTruthyPair, buying_success_update, phaseHasBuy,
    actC1, sC1after, order_buy, List.find?, hm, h1, h2]

/-- C2: the sell trigger and quantity behave as claimed (no sell at 1049,
full sellable quantity 80 at 1051 — Scenario C), but the claim's "only on
confirmed success is the state reset" fails: this cycle's SELL is REJECTED
by the gateway (flag `false`), yet the state is reset to a fresh BUYING
cycle because the `(success, result)` tuple returned by `trade.order_sell`
is always truthy. -/
theorem sell_reset_divergence :
    process_active_forced_trade mdC2lo false sC2 "C2NEW" = (.handled, some sC2)
    ∧ process_active_forced_trade mdC2hi false sC2 "C2NEW" = (.act actC2, some sC2reset)
    ∧ actC2.quantity = get_stock_sellable_quantity "005930" holdC2
    ∧ sC2reset.current_phase = .BUYING
    ∧ sC2reset.trade_id ≠ sC2.trade_id := by
  have hm : ¬ (("KRX":String) = "NXT") := by decide
  refine ⟨?_, ?_, by decide, by decide, by decide⟩
  · norm_num [process_active_forced_trade, mdC2lo, sC2, holdC2, auto_init, holdingFor,
      compute_order_quantity, order_quantity_raw, get_available_buy_cash,
      get_stock_sellable_quantity, is_trading_hours, pyTruthyPair, selling_reset,
      phaseHasBuy, order_sell, List.find?, hm]
  · norm_num [process_active_forced_trade, mdC2hi, sC2, sC2reset, holdC2, auto_init,
      holdingFor, compute_order_quantity, order_quantity_raw, get_available_buy_cash,
      get_stock_sellable_quantity, is_trading_hours, pyTruthyPair, selling_reset,
      phaseHasBuy, order_sell, List.find?, hm]
    all_goals decide

/-- C3: the per-division order size.  In quantity mode the final division
(`divisions_done = division_count - 1`) takes the full remainder and the
others floor-divide it by `division_count - divisions_done`; in amount
mode the analogous order amount is clamped to `min(order_amount,
available_cash)` and converted to shares by floor division with the
current price; the result is never negative. -/
theorem order_size_formula (s : ForcedTradeState) (p cash : Int)
    (hphase : phaseHasBuy s.current_phase = true)
    (hdc : 1 ≤ s.division_count)
    (hdd0 : 0 ≤ s.divisions_done)
    (hdd : s.divisions_done < s.division_count) :
    (0 < s.total_quantity → 0 ≤ s.remaining_quantity →
      compute_order_quantity s p cash =
        (if s.divisions_done = s.division_count - 1 then s.remaining_quantity
         else Int.fdiv s.remaining_quantity (s.division_count - s.divisions_done)))
  ∧ (s.total_quantity ≤ 0 → 0 < s.total_amount → 0 ≤ s.remaining_amount →
      0 ≤ cash → 0 < p →
      compute_order_quantity s p cash =
        Int.fdiv (min (if s.divisions_done = s.division_count - 1 then s.remaining_amount
          else Int.fdiv s.remaining_amount (s.division_count - s.divisions_done)) cash) p)
  ∧ 0 ≤ compute_order_quantity s p cash := by
  have hmax : max 1 (s.division_count - s.divisions_done)
      = s.division_count - s.divisions_done :=
    max_eq_right (by omega)
  refine ⟨?_, ?_, compute_order_quantity_nonneg s p cash⟩
  · intro htq hrq
    have hraw : order_quantity_raw s p cash =
        (if s.divisions_done = s.division_count - 1 then s.remaining_quantity
         else Int.fdiv s.remaining_quantity (s.division_count - s.divisions_done)) := by
      simp only [order_quantity_raw, hphase, if_true]
      rw [if_pos htq]
      by_cases hfin : s.divisions_done = s.division_count - 1
      · simp [hfin]
      · have hdc2 : ¬ s.division_count ≤ 1 := by omega
        simp [hfin, hdc2, hmax]
    have hnn : 0 ≤ order_quantity_raw s p cash := by
      rw [hraw]
      split_ifs
      · exact hrq
      · rw [Int.fdiv_eq_ediv _ (by omega)]
        exact Int.ediv_nonneg hrq (by omega)
    simp only [compute_order_quantity]
    rw [if_neg (not_lt.mpr hnn), hraw]
  · intro htq hta hra hcash hp
    have hA : (if s.divisions_done = s.division_count - 1 then s.remaining_amount
        else (if s.division_count ≤ 1 then s.remaining_amount
          else Int.fdiv s.remaining_amount
            (max 1 (s.division_count - s.divisions_done))))
        = (if s.divisions_done = s.division_count - 1 then s.remaining_amount
           else Int.fdiv s.remaining_amount (s.division_count - s.divisions_done)) := by
      by_cases hfin : s.divisions_done = s.division_count - 1
      · simp [hfin]
      · have hdc2 : ¬ s.division_count ≤ 1 := by omega
        simp [hfin, hdc2, hmax]
    have hAnn : 0 ≤ (if s.divisions_done = s.division_count - 1 then s.remaining_amount
        else Int.fdiv s.remaining_amount (s.division_count - s.divisions_done)) := by
      split_ifs
      · exact hra
      · rw [Int.fdiv_eq_ediv _ (by omega)]
        exact Int.ediv_nonneg hra (by omega)
    have hraw : order_quantity_raw s p cash =
        Int.fdiv (min (if s.divisions_done = s.division_count - 1 then s.remaining_amount
          else Int.fdiv s.remaining_amount (s.division_count - s.divisions_done)) cash)
          p := by
      simp only [order_quantity_raw, hphase, if_true]
      rw [if_neg (not_lt.mpr htq), if_pos hta, hA]
      congr 1
      rcases lt_or_le cash (if s.divisions_done = s.division_count - 1
          then s.remaining_amount
          else Int.fdiv s.remaining_amount (s.division_count - s.divisions_done))
        with h | h
      · rw [if_pos h, min_eq_right (le_of_lt h)]
      · rw [if_neg (not_lt.mpr h), min_eq_left h]
    have hnn : 0 ≤ order_quantity_raw s p cash := by
      rw [hraw, Int.fdiv_eq_ediv _ (le_of_lt hp)]
      exact Int.ediv_nonneg (le_min hAnn hcash) (le_of_lt hp)
    simp only [compute_order_quantity]
    rw [if_neg (not_lt.mpr hnn), hraw]

/-- Witness for C3 at Scenario D: `remaining_amount=100000`,
`available_cash=60000`, `current_price=500`, single division — the order
amount is clamped to 60000 and yields 120 shares. -/
theorem order_size_formula_witness :
    compute_order_quantity sD 500 60000 =
      Int.fdiv (min (if sD.divisions_done = sD.division_count - 1
        then sD.remaining_amount
        else Int.fdiv sD.remaining_amount (sD.division_count - sD.divisions_done))
        60000) 500
    ∧ 0 ≤ compute_order_quantity sD 500 60000
    ∧ compute_order_quantity sD 500 60000 = 120 := by
  have h := order_size_formula sD 500 60000 (by decide) (by decide) (by decide) (by decide)
  exact ⟨h.2.1 (by decide) (by decide) (by decide) (by decide) (by decide),
         h.2.2, by decide⟩

/-- C4: the claim says a failed order submission leaves the persisted state
identical, so the division is retried.  The code disagrees: the gateway
rejects this cycle's BUY (success flag `false`), yet the state is advanced
and persisted exactly as on success (`divisions_done` 0→1,
`remaining_quantity` 100→75), because the `(success, result)` tuple from
`trade.order_buy` is truthy even when the flag is `False`, making the
failure branch at condition.py lines 387–389 unreachable. -/
theorem failed_order_still_mutates :
    process_active_forced_trade mdC4 false sC4 "C4NEW" = (.act actC4, some sC4after)
    ∧ sC4after ≠ sC4 := by
  have hm : ¬ (("KRX":String) = "NXT") := by decide
  have h1 : Int.fdiv 100 4 = 25 := by decide
  refine ⟨?_, by decide⟩
  norm_num [process_active_forced_trade, mdC4, sC4, auto_init, holdingFor,
    compute_order_quantity, order_quantity_raw, get_available_buy_cash,
    is_trading_hours, pyTruthyPair, buying_success_update, phaseHasBuy,
    actC4, sC4after, order_buy, List.find?, hm, h1]

/-- C5 counterexample: from a legal amount-mode start state
(`remaining_quantity = 0`, `remaining_amount = 100000`), one confirmed
successful division of 120 shares drives the persisted
`remaining_quantity` to −120: line 371 subtracts the order quantity
without any clamp. -/
theorem remaining_quantity_negative_cx :
    0 ≤ sC5.remaining_quantity ∧ 0 ≤ sC5.remaining_amount
    ∧ (process_active_forced_trade mdC5 true sC5 "C5NEW").2 = some sC5after
    ∧ sC5after.remaining_quantity = -120 := by
  have hm : ¬ (("KRX":String) = "NXT") := by decide
  have h1 : Int.fdiv 60000 500 = 120 := by decide
  refine ⟨by decide, by decide, ?_, by decide⟩
  norm_num [process_active_forced_trade, mdC5, sC5, auto_init, holdingFor,
    compute_order_quantity, order_quantity_raw, get_available_buy_cash,
    is_trading_hours, pyTruthyPair, buying_success_update, phaseHasBuy,
    sC5after, order_buy, List.find?, hm, h1]

/-- C5 amended: in QUANTITY mode (`total_quantity > 0`) the invariants do
hold — a single state-machine cycle keeps `remaining_quantity ≥ 0` and
`remaining_amount ≥ 0` (the latter because nothing but the AUTO sell reset
ever writes it).  In amount mode the code decrements `remaining_quantity`
without clamping, so it goes negative (see the counterexample). -/
theorem remaining_nonneg_step (md : MarketData) (ok : Bool)
    (s s2 : ForcedTradeState) (tid : String)
    (hq : 0 < s.total_quantity) (hrq : 0 ≤ s.remaining_quantity)
    (hra : 0 ≤ s.remaining_amount) (hta : 0 ≤ s.total_amount)
    (hstep : (process_active_forced_trade md ok s tid).2 = some s2) :
    0 ≤ s2.remaining_quantity ∧ 0 ≤ s2.remaining_amount := by
  have h1rq : 0 ≤ (auto_init md s).remaining_quantity :=
    auto_init_remaining_quantity_nonneg md s hrq
  have h1ra : 0 ≤ (auto_init md s).remaining_amount := by
    rw [auto_init_remaining_amount]; exact hra
  have h1tq : (auto_init md s).total_quantity = s.total_quantity :=
    auto_init_total_quantity md s
  have h1ta : (auto_init md s).total_amount = s.total_amount :=
    auto_init_total_amount md s
  have hle : ∀ cp cash, compute_order_quantity (auto_init md s) cp cash
      ≤ (auto_init md s).remaining_quantity := fun cp cash =>
    compute_order_quantity_le _ cp cash (by rw [h1tq]; exact hq) h1rq
  simp only [process_active_forced_trade, pyTruthyPair, eq_self_iff_true, if_true] at hstep
  cases hpd : md.price_df s.stock_code <;> simp only [hpd] at hstep <;>
    split at hstep <;>
    (try split at hstep) <;>
    (try split at hstep) <;>
    (try split at hstep) <;>
    (try split at hstep) <;>
    (try split at hstep) <;>
    (try split at hstep) <;>
    (try split at hstep)
  all_goals
    first
      | (simp only [Prod.snd] at hstep
         exact Option.noConfusion hstep)
      | (simp only [Prod.snd, Option.some.injEq] at hstep
         subst hstep
         first
           | exact ⟨hrq, hra⟩
           | exact ⟨h1rq, h1ra⟩
           | exact ⟨by rw [buying_success_update_remaining_quantity]
                       exact sub_nonneg.mpr (hle _ _),
                    by rw [buying_success_update_remaining_amount]
                       exact h1ra⟩
           | exact ⟨by rw [(selling_reset_remaining _ _).1, h1tq]
                       exact le_of_lt hq,
                    by rw [(selling_reset_remaining _ _).2, h1ta]
                       exact hta⟩)

/-- Witness for C5 amended: a quantity-mode division (100 shares in 4
divisions, first division of 25) keeps both remainders nonnegative. -/
theorem remaining_nonneg_step_witness :
    0 ≤ sW5after.remaining_quantity ∧ 0 ≤ sW5after.remaining_amount :=
  remaining_nonneg_step mdW5 true sW5 sW5after "W5NEW" (by decide) (by decide)
    (by decide) (by decide) (by decide)

/-- C6 counterexample: an ACTIVE persisted forced trade does not suffice to
skip the Rule Selector — `find_action_to_take` also requires
`config.forced_trade.enabled`; with that flag false (or the key absent)
the general rules ARE evaluated in the same cycle. -/
theorem rules_consulted_while_active_cx :
    sC6.active = true
    ∧ (find_action_to_take cfgC6 (some sC6) mdC6 true "N").2 = true := by decide

/-- C6 amended: when the forced-trade config is enabled AND the persisted
state is active, `find_action_to_take` returns the forced-trade outcome
directly and `_process_rules` is never invoked. -/
theorem forced_trade_mutual_exclusion (cfg : Config) (s : ForcedTradeState)
    (md : MarketData) (ok : Bool) (tid : String)
    (hen : cfg.forced_trade_enabled = true) (hact : s.active = true) :
    find_action_to_take cfg (some s) md ok tid
      = (some (process_active_forced_trade md ok s tid), false) := by
  simp [find_action_to_take, hen, hact]

/-- Witness for C6 amended: the enabled configuration with the same active
state routes the cycle through the state machine only. -/
theorem forced_trade_mutual_exclusion_witness :
    find_action_to_take cfgW6 (some sC6) mdC6 true "N"
      = (some (process_active_forced_trade mdC6 true sC6 "N"), false) :=
  forced_trade_mutual_exclusion cfgW6 sC6 mdC6 true "N" rfl rfl

/-- C7: the claim says executed division sizes sum to `total_quantity` for
AUTO AND plain BUY/SELL plans.  The code disagrees for plain plans: the
plain branch never decrements `remaining_quantity`, so Scenario B
(`total_quantity=10, division_count=3`) executes sizes 3, 5, 10 (sum 18)
as a plain BUY, while the AUTO branch correctly executes 3, 3, 4
(sum 10) with the final division taking the full remainder. -/
theorem plain_divisions_overshoot :
    (run_divisions mdC7 true 3 (some sC7plain)).1 = [3, 5, 10]
    ∧ (run_divisions mdC7 true 3 (some sC7auto)).1 = [3, 3, 4]
    ∧ sC7plain.total_quantity = 10
    ∧ (3 + 5 + 10 : Int) = 18 := by
  have hm : ¬ (("KRX":String) = "NXT") := by decide
  have hfd1 : Int.fdiv 10 3 = 3 := by decide
  have hfd2 : Int.fdiv 10 2 = 5 := by decide
  have hfd3 : Int.fdiv 7 2 = 3 := by decide
  have hp1 : process_active_forced_trade mdC7 true sC7plain "fresh" =
      (.act (actC7plain 3), some sP1) := by
    norm_num [process_active_forced_trade, mdC7, sC7plain, sP1, auto_init,
      holdingFor, compute_order_quantity, order_quantity_raw, plain_order_quantity,
      get_available_buy_cash, get_stock_sellable_quantity, is_trading_hours,
      pyTruthyPair, buying_success_update, phaseHasBuy, order_buy, order_sell,
      List.find?, actC7plain, hm, hfd1, hfd2, hfd3]
    all_goals decide
  have hp2 : process_active_forced_trade mdC7 true sP1 "fresh" =
      (.act (actC7plain 5), some sP2) := by
    norm_num [process_active_forced_trade, mdC7, sC7plain, sP1, sP2, auto_init,
      holdingFor, compute_order_quantity, order_quantity_raw, plain_order_quantity,
      get_available_buy_cash, get_stock_sellable_quantity, is_trading_hours,
      pyTruthyPair, buying_success_update, phaseHasBuy, order_buy, order_sell,
      List.find?, actC7plain, hm, hfd1, hfd2, hfd3]
    all_goals decide
  have hp3 : process_active_forced_trade mdC7 true sP2 "fresh" =
      (.act (actC7plain 10), none) := by
    norm_num [process_active_forced_trade, mdC7, sC7plain, sP2, auto_init,
      holdingFor, compute_order_quantity, order_quantity_raw, plain_order_quantity,
      get_available_buy_cash, get_stock_sellable_quantity, is_trading_hours,
      pyTruthyPair, buying_success_update, phaseHasBuy, order_buy, order_sell,
      List.find?, actC7plain, hm, hfd1, hfd2, hfd3]
    all_goals decide
  have ha1 : process_active_forced_trade mdC7 true sC7auto "fresh" =
      (.act (actC7auto 3), some sA1) := by
    norm_num [process_active_forced_trade, mdC7, sC7plain, sC7auto, sA1, auto_init,
      holdingFor, compute_order_quantity, order_quantity_raw, plain_order_quantity,
      get_available_buy_cash, get_stock_sellable_quantity, is_trading_hours,
      pyTruthyPair, buying_success_update, phaseHasBuy, order_buy, order_sell,
      List.find?, actC7auto, hm, hfd1, hfd2, hfd3]
  have ha2 : process_active_forced_trade mdC7 true sA1 "fresh" =
      (.act (actC7auto 3), some sA2) := by
    norm_num [process_active_forced_trade, mdC7, sC7plain, sC7auto, sA1, sA2, auto_init,
      holdingFor, compute_order_quantity, order_quantity_raw, plain_order_quantity,
      get_available_buy_cash, get_stock_sellable_quantity, is_trading_hours,
      pyTruthyPair, buying_success_update, phaseHasBuy, order_buy, order_sell,
      List.find?, actC7auto, hm, hfd1, hfd2, hfd3]
  have ha3 : process_active_forced_trade mdC7 true sA2 "fresh" =
      (.act (actC7auto 4), some sA3) := by
    norm_num [process_active_forced_trade, mdC7, sC7plain, sC7auto, sA2, sA3, auto_init,
      holdingFor, compute_order_quantity, order_quantity_raw, plain_order_quantity,
      get_available_buy_cash, get_stock_sellable_quantity, is_trading_hours,
      pyTruthyPair, buying_success_update, phaseHasBuy, order_buy, order_sell,
      List.find?, actC7auto, hm, hfd1, hfd2, hfd3]
  refine ⟨?_, ?_, by decide, by decide⟩
  · simp [run_divisions, hp1, hp2, hp3, actC7plain]
  · simp [run_divisions, ha1, ha2, ha3, actC7auto]

/-- C8 counterexample: "fail-closed for every non-predicate name" is false
of the program.  A condition named after the helper function
`_get_available_buy_cash` — not a predicate — is resolved by the
`globals()` lookup, CALLED, and its truthy integer result (cash 100000)
makes the whole rule evaluate as SATISFIED, not false; a condition named
after the imported `os` module raises a TypeError that propagates
(`none`), so the rule does not evaluate to false there either. -/
theorem conditions_not_fail_closed_cx :
    module_globals condHelperCash.name = some (.helper .available_buy_cash)
    ∧ evaluate_conditions "KRX" "005930" [condHelperCash] mdC8 = some true
    ∧ module_globals condOs.name = some .raising
    ∧ evaluate_conditions "KRX" "005930" [condOs] mdC8 = none := by decide

/-- C8 amended: condition-list evaluation is strict AND with
short-circuit — the empty list is true; a name absent from the module
namespace fails the whole rule closed (false, error logged) whatever
follows; a false predicate, or a helper returning 0, fails the rule
whatever follows; but a name resolving to any other module global raises
instead of evaluating the rule to false; and the list evaluates true
exactly when every condition resolves to a true predicate or to a helper
with a nonzero (truthy) result. -/
theorem condition_list_semantics :
    (∀ (sm sc : String) (md : MarketData),
        evaluate_conditions sm sc [] md = some true)
    ∧ (∀ (sm sc : String) (md : MarketData) (c : CondConfig) (rest : List CondConfig),
        module_globals c.name = none →
        evaluate_conditions sm sc (c :: rest) md = some false)
    ∧ (∀ (sm sc : String) (md : MarketData) (c : CondConfig) (rest : List CondConfig)
        (f : CondFn), module_globals c.name = some (.predicate f) →
        apply_cond f sc c.params md (market_kwarg sm) = false →
        evaluate_conditions sm sc (c :: rest) md = some false)
    ∧ (∀ (sm sc : String) (md : MarketData) (c : CondConfig) (rest : List CondConfig)
        (h : HelperFn), module_globals c.name = some (.helper h) →
        apply_helper h sc md = 0 →
        evaluate_conditions sm sc (c :: rest) md = some false)
    ∧ (∀ (sm sc : String) (md : MarketData) (c : CondConfig) (rest : List CondConfig),
        module_globals c.name = some .raising →
        evaluate_conditions sm sc (c :: rest) md = none)
    ∧ (∀ (sm sc : String) (md : MarketData) (conds : List CondConfig),
        evaluate_conditions sm sc conds md = some true ↔
          ∀ c ∈ conds,
            (∃ f, module_globals c.name = some (PyGlobal.predicate f)
              ∧ apply_cond f sc c.params md (market_kwarg sm) = true)
            ∨ (∃ h, module_globals c.name = some (PyGlobal.helper h)
              ∧ apply_helper h sc md ≠ 0)) := by
  refine ⟨fun sm sc md => rfl, ?_, ?_, ?_, ?_, ?_⟩
  · intro sm sc md c rest h
    simp [evaluate_conditions, h]
  · intro sm sc md c rest f hf ha
    simp [evaluate_conditions, hf, ha]
  · intro sm sc md c rest h hh ha
    simp [evaluate_conditions, hh, ha]
  · intro sm sc md c rest hr
    simp [evaluate_conditions, hr]
  · intro sm sc md conds
    induction conds with
    | nil =>
      simp [evaluate_conditions]
    | cons c rest ih =>
      cases hg : module_globals c.name with
      | none =>
        simp only [evaluate_conditions, hg]
        constructor
        · intro h
          exact absurd h (by simp)
        · intro h
          rcases h c (List.mem_cons_self c rest) with ⟨f, hf2, _⟩ | ⟨h2, hh2, _⟩
          · rw [hg] at hf2
            exact Option.noConfusion hf2
          · rw [hg] at hh2
            exact Option.noConfusion hh2
      | some g =>
        cases g with
        | predicate f =>
          by_cases ha : apply_cond f sc c.params md (market_kwarg sm) = true
          · simp only [evaluate_conditions, hg, ha, if_true, ih]
            constructor
            · intro h c2 hc2
              rcases List.mem_cons.mp hc2 with rfl | hc2
              · exact Or.inl ⟨f, hg, ha⟩
              · exact h c2 hc2
            · intro h c2 hc2
              exact h c2 (List.mem_cons_of_mem c hc2)
          · have ha2 : apply_cond f sc c.params md (market_kwarg sm) = false := by
              cases hb : apply_cond f sc c.params md (market_kwarg sm)
              · rfl
              · exact absurd hb ha
            simp only [evaluate_conditions, hg, ha2, Bool.false_eq_true, if_false]
            constructor
            · intro h
              exact absurd h (by simp)
            · intro h
              rcases h c (List.mem_cons_self c rest) with ⟨f2, hf2, ha3⟩ | ⟨h2, hh2, _⟩
              · rw [hg] at hf2
                cases hf2
                rw [ha3] at ha2
                exact Bool.noConfusion ha2
              · rw [hg] at hh2
                cases hh2
        | helper h =>
          by_cases ha : apply_helper h sc md = 0
          · simp only [evaluate_conditions, hg, ha]
            simp only [ne_eq, not_true_eq_false, if_false]
            constructor
            · intro h2
              exact absurd h2 (by simp)
            · intro h2
              rcases h2 c (List.mem_cons_self c rest) with ⟨f2, hf2, _⟩ | ⟨h3, hh3, ha3⟩
              · rw [hg] at hf2
                cases hf2
              · rw [hg] at hh3
                cases hh3
                exact (ha3 ha).elim
          · simp only [evaluate_conditions, hg, ha, ne_eq, not_false_eq_true, if_true, ih]
            constructor
            · intro h2 c2 hc2
              rcases List.mem_cons.mp hc2 with rfl | hc2
              · exact Or.inr ⟨h, hg, ha⟩
              · exact h2 c2 hc2
            · intro h2 c2 hc2
              exact h2 c2 (List.mem_cons_of_mem c hc2)
        | raising =>
          simp only [evaluate_conditions, hg]
          constructor
          · intro h
            exact absurd h (by simp)
          · intro h
            rcases h c (List.mem_cons_self c rest) with ⟨f2, hf2, _⟩ | ⟨h3, hh3, _⟩
            · rw [hg] at hf2
              cases hf2
            · rw [hg] at hh3
              cases hh3

/-- Witness for C8 amended: the absent name "frobnicate" makes the rule
false, and the empty list is true. -/
theorem condition_list_semantics_witness :
    evaluate_conditions "NXT" "005930" [condUnknown] mdC8 = some false
    ∧ evaluate_conditions "NXT" "005930" [] mdC8 = some true :=
  ⟨condition_list_semantics.2.1 "NXT" "005930" mdC8 condUnknown [] (by decide),
   condition_list_semantics.1 "NXT" "005930" mdC8⟩

/-- C9 counterexample: with `sell_all=true` the strategy sells the HELD
quantity (`hldg_qty`, here 10), not the sellable quantity
(`ord_psbl_qty`, here 5), so the claim's "quantity equals the currently
sellable quantity" fails whenever the two differ. -/
theorem simple_sell_uses_held_cx :
    get_stock_sellable_quantity "005930" holdC9 = 5
    ∧ Option.map (fun a => a.quantity) (simple_sell paramsC9 holdC9) = some 10 := by
  decide

/-- C9 amended: with `sell_all=true` the returned quantity is the HELD
quantity from the snapshot (which may exceed the sellable quantity), and
the strategy fails (`none`) when that held quantity is not positive;
without `sell_all` an explicit positive `quantity` is required, anything
else yields `none`. -/
theorem simple_sell_semantics (p : StrategyParams) (hs : List HoldingRow) (sc : String)
    (hcode : p.stock_code = some sc) (hne : (sc == "") = false) :
    (p.sell_all = true →
      ((0 < held_quantity sc hs →
          simple_sell p hs = some
            { type := .SELL, stock_code := sc, quantity := held_quantity sc hs,
              price := p.price, market := p.market,
              strategy_name := "simple_sell" })
       ∧ (held_quantity sc hs ≤ 0 → simple_sell p hs = none)))
    ∧ (p.sell_all = false → p.quantity = none → simple_sell p hs = none)
    ∧ (∀ q : Int, p.sell_all = false → p.quantity = some q → q ≤ 0 →
        simple_sell p hs = none)
    ∧ (∀ q : Int, p.sell_all = false → p.quantity = some q → 0 < q →
        simple_sell p hs = some
          { type := .SELL, stock_code := sc, quantity := q, price := p.price,
            market := p.market, strategy_name := "simple_sell" }) := by
  refine ⟨?_, ?_, ?_, ?_⟩
  · intro hall
    constructor
    · intro hpos
      simp only [simple_sell, hcode, hne, hall, Bool.false_eq_true, if_false, if_true]
      rw [if_pos hpos]
    · intro hnp
      simp only [simple_sell, hcode, hne, hall, Bool.false_eq_true, if_false, if_true]
      rw [if_neg (not_lt.mpr hnp)]
  · intro hall hqn
    simp [simple_sell, hcode, hne, hall, hqn, pyTruthyOptInt]
  · intro q hall hq hle
    simp only [simple_sell, hcode, hne, hall, hq, Bool.false_eq_true, if_false]
    rw [if_pos]
    right
    simpa using hle
  · intro q hall hq hqpos
    have h0 : (q != 0) = true := by simp; omega
    simp only [simple_sell, hcode, hne, hall, hq, Bool.false_eq_true, if_false]
    rw [if_neg]
    · simp
    · rw [not_or]
      constructor
      · simp [pyTruthyOptInt, h0]
      · simpa using hqpos

/-- Witness for C9 amended: at the 10-held/5-sellable snapshot the
strategy returns the held quantity 10. -/
theorem simple_sell_semantics_witness :
    simple_sell paramsC9 holdC9 = some
      { type := .SELL, stock_code := "005930",
        quantity := held_quantity "005930" holdC9, price := 0, market := "KRX",
        strategy_name := "simple_sell" } :=
  ((simple_sell_semantics paramsC9 holdC9 "005930" rfl (by decide)).1 rfl).1 (by decide)

/-- C10: the `market` keyword `_evaluate_conditions` passes to predicates is
always the "KRX" default (the `'strategy_config' in locals()` test at
condition.py line 196 is always false there), so the trading-hours
condition is evaluated against the KRX table whatever market the rule's
strategy configures, and rule configurations differing only in the
strategy's market parameter evaluate their conditions identically. -/
theorem trading_hours_market_fixed :
    (∀ m : String, market_kwarg m = "KRX")
    ∧ (∀ (m1 m2 : String) (ce : Bool) (wd secs : Nat),
        is_trading_hours ce wd secs (market_kwarg m1)
          = is_trading_hours ce wd secs (market_kwarg m2))
    ∧ (∀ (m1 m2 sc : String) (conds : List CondConfig) (md : MarketData),
        evaluate_conditions m1 sc conds md = evaluate_conditions m2 sc conds md)
    ∧ (∀ (r : Rule) (m : String) (sc : String) (md : MarketData),
        evaluate_conditions (set_strategy_market r m).strategy.params.market sc
            (set_strategy_market r m).conditions md
          = evaluate_conditions r.strategy.params.market sc r.conditions md) := by
  have key : ∀ (conds : List CondConfig) (m1 m2 sc : String) (md : MarketData),
      evaluate_conditions m1 sc conds md = evaluate_conditions m2 sc conds md := by
    intro conds
    induction conds with
    | nil =>
      intro m1 m2 sc md
      rfl
    | cons c rest ih =>
      intro m1 m2 sc md
      simp only [evaluate_conditions, market_kwarg]
      cases module_globals c.name with
      | none => rfl
      | some g =>
        cases g with
        | predicate f => rw [ih m1 m2 sc md]
        | helper h => rw [ih m1 m2 sc md]
        | raising => rfl
  refine ⟨fun m => rfl, fun m1 m2 ce wd secs => rfl, ?_, ?_⟩
  · intro m1 m2 sc conds md
    exact key conds m1 m2 sc md
  · intro r m sc md
    exact key r.conditions (set_strategy_market r m).strategy.params.market
      r.strategy.params.market sc md

end TradeStock
